import Mathlib

/-!
Verification of the display-server interaction layer of the xshot screenshot
tool (src/x_interface.rs), as a shallow embedding in Lean 4.

The embedding follows the Rust source function by function.  Server
interaction is made explicit: every definition that talks to the server
returns, alongside its result, the list of requests it issued, and takes the
server's replies (client lists, property values, reply success flags) as
parameters.  Process aborts of the Rust code (the `panic!` / `.expect` calls)
are modelled by the `RunResult.fatal` outcome, distinct from the `RunResult.err`
outcome that models a propagated `xcb::Error` (the `?` operator).
-/

namespace Xshot

/-- Messages of the panicking calls (`panic!` / `.expect`) in x_interface.rs,
as an enumeration so that aborts can be compared decidably. -/
inductive AbortMsg where
  /-- panic at x_interface.rs:216, message "unable to find window class". -/
  | unableToFindWindowClass
  /-- panic at x_interface.rs:281, message "unable to establish window as clipboard owner". -/
  | unableToEstablishOwner
  /-- expect at x_interface.rs:185, message "invalid window id". -/
  | invalidWindowId
  /-- expect at x_interface.rs:160, message "failed image conversion". -/
  | failedImageConversion
  /-- implicit panic of a Rust slice index out of bounds, x_interface.rs:152-154. -/
  | indexOutOfBounds
  /-- expect at x_interface.rs:51, message "unable to establish atom". -/
  | unableToEstablishAtom
  deriving DecidableEq, Repr

/-- Outcome of running a fallible piece of the Rust code.
`ok` is a normal return, `err` a propagated `xcb` error (`?`),
`fatal` a process abort (`panic!` / `.expect`), and `blocked` an
execution stuck on `wait_for_event` with no further event arriving. -/
inductive RunResult (α : Type) where
  | ok (a : α)
  | err
  | fatal (m : AbortMsg)
  | blocked
  deriving DecidableEq, Repr

/-- Requests sent to the X server, as issued by x_interface.rs.
`changePropTargets` and `sendNotify` are issued with the unchecked
`send_request`; the rest are checked (`request`/`send_and_check_request`). -/
inductive XRequest where
  /-- GetProperty of _NET_CLIENT_LIST on the root window, x_interface.rs:168-175. -/
  | getPropertyClientList
  /-- GetProperty of the probed property on one candidate client, x_interface.rs:192-199. -/
  | getPropertyClient (window : Nat)
  /-- InternAtom request, x_interface.rs:43-47 and 256-261. -/
  | internAtom (name : List Char)
  /-- CreateWindow for the throwaway clipboard owner, x_interface.rs:239-253. -/
  | createWindow (wid parent : Nat)
  /-- SetSelectionOwner, x_interface.rs:266-271. -/
  | setSelectionOwner (owner selection : Nat)
  /-- GetSelectionOwner, x_interface.rs:274-277. -/
  | getSelectionOwner (selection : Nat)
  /-- unchecked ChangeProperty answering a targets query, x_interface.rs:296-302. -/
  | changePropTargets (window property : Nat) (data : List Nat)
  /-- checked ChangeProperty writing the image data, x_interface.rs:304-310. -/
  | changePropData (window property ty : Nat) (data : List Nat)
  /-- DestroyWindow of the owner window, x_interface.rs:319-320. -/
  | destroyWindow (wid : Nat)
  /-- unchecked SendEvent of a SelectionNotifyEvent, x_interface.rs:326-337. -/
  | sendNotify (time requestor selection target property : Nat)
  /-- flush of the outgoing queue, x_interface.rs:338. -/
  | flush
  deriving DecidableEq, Repr

/-! ### Atom cache (the atoms! / atom! macros, x_interface.rs:11-64) -/

/-- Models `str::to_ascii_uppercase` on the (pure-ASCII) atom names,
x_interface.rs:46. -/
def asciiUpperL (l : List Char) : List Char := l.map Char.toUpper

/-- One resolution step of a lazily interned atom (the body of the `atom!`
macro, x_interface.rs:39-56): `cell` is the current `OnceCell` content,
`reply` the server's reply to an InternAtom request (`none` models a failed
`wait_for_reply`, on which the code panics with "unable to establish atom").
Returns the resolved handle, the new cell content, and the requests issued. -/
def atomResolve (name : List Char) (cell : Option Nat) (reply : Option Nat) :
    RunResult Nat × Option Nat × List XRequest :=
  match cell with
  | some v => (.ok v, some v, [])
  | none =>
    match reply with
    | some a => (.ok a, some a, [.internAtom (asciiUpperL name)])
    | none => (.fatal .unableToEstablishAtom, none, [.internAtom (asciiUpperL name)])

/-! ### String utilities used by find_window_class -/

/-- ASCII-range lowercasing of a character list, modelling
`str::to_lowercase` (x_interface.rs:209); the inputs of interest are ASCII,
where `Char.toLower` coincides with Rust's lowercasing. -/
def toLowerL (l : List Char) : List Char := l.map Char.toLower

/-- Does `l` start with `needle`?  (Helper for substring containment.) -/
def startsWith : List Char → List Char → Bool
  | _, [] => true
  | [], _ :: _ => false
  | h :: t, h' :: t' => h = h' && startsWith t t'

/-- Substring containment, modelling Rust `str::contains` with needle
`needle` and haystack `hay` (x_interface.rs:209). -/
def hasSub (needle : List Char) : List Char → Bool
  | [] => needle.isEmpty
  | h :: t => startsWith (h :: t) needle || hasSub needle t

/-- Models Rust `str::split(sep)` as an iterator collected to a list:
every maximal separator-free run, including empty runs at the ends. -/
def splitChar (sep : Char) : List Char → List (List Char)
  | [] => [[]]
  | h :: t =>
    if h = sep then
      [] :: splitChar sep t
    else
      match splitChar sep t with
      | [] => [[h]]
      | g :: gs => (h :: g) :: gs

/-- The NUL character separating the fields of a WM_CLASS property value. -/
def nulChar : Char := Char.ofNat 0

/-- Models `title.split('\0').nth(1).unwrap_or(title)` (x_interface.rs:207):
the second NUL-separated field when it exists, the whole value otherwise. -/
def titleOf (raw : List Char) : List Char :=
  match (splitChar nulChar raw).get? 1 with
  | some second => second
  | none => raw

/-- The match test of the candidate loop (x_interface.rs:207-209): extract
the title from the probed property value `raw`, lowercase both sides, and
test substring containment of the search string `n`. -/
def matchesProbe (n raw : List Char) : Bool :=
  hasSub (toLowerL n) (toLowerL (titleOf raw))

/-! ### Target resolution (find_window_class, x_interface.rs:165-217) -/

/-- The target given on the command line (crate::WindowTarget), carrying the
search string (or the hexadecimal window id string for `Wid`). -/
inductive WindowTarget where
  | Name (n : List Char)
  | Class (n : List Char)
  | Wid (n : List Char)
  deriving DecidableEq, Repr

/-- A top-level client as the server reports it: its window id and the values
of the two properties find_window_class may probe (_NET_WM_NAME for a Name
target, WM_CLASS for a Class target).  Property values are modelled as
character lists; the code's `from_utf8().expect` is implicit in that choice. -/
structure Client where
  window : Nat
  nameProp : List Char
  classProp : List Char
  deriving DecidableEq, Repr

/-- The property value the candidate loop probes for a given target kind
(x_interface.rs:177-190 chooses the property; 192-200 reads it). -/
def probedValue (c : Client) : WindowTarget → List Char
  | .Name _ => c.nameProp
  | .Class _ => c.classProp
  | .Wid _ => []

/-- Models `str::trim_start_matches("0x")` (x_interface.rs:185): drop every
leading occurrence of the two-character marker. -/
def dropHexMarker : List Char → List Char
  | '0' :: 'x' :: rest => dropHexMarker rest
  | l => l

/-- Value of one hexadecimal digit, or `none` for a non-digit. -/
def hexDigitVal (c : Char) : Option Nat :=
  if '0' ≤ c ∧ c ≤ '9' then some (c.toNat - 48)
  else if 'a' ≤ c ∧ c ≤ 'f' then some (c.toNat - 87)
  else if 'A' ≤ c ∧ c ≤ 'F' then some (c.toNat - 55)
  else none

/-- Accumulating hexadecimal evaluation with the u32 overflow bound of
`u32::from_str_radix`: `none` on a non-digit or on overflow past 2^32-1. -/
def hexAcc (acc : Nat) : List Char → Option Nat
  | [] => some acc
  | c :: rest =>
    match hexDigitVal c with
    | some d => if acc * 16 + d < 4294967296 then hexAcc (acc * 16 + d) rest else none
    | none => none

/-- Models `u32::from_str_radix(n.trim_start_matches("0x"), 16)`
(x_interface.rs:184-185): strip leading "0x" markers, allow one leading '+',
then require a nonempty all-hex-digit string within u32 range. -/
def parseWid (s : List Char) : Option Nat :=
  let body := dropHexMarker s
  let digits :=
    match body with
    | '+' :: rest => rest
    | l => l
  match digits with
  | [] => none
  | _ :: _ => hexAcc 0 digits

/-- The candidate loop of find_window_class (x_interface.rs:191-213): walk the
client list in server order, probing each candidate's property (one
GetProperty request per probed candidate, recorded in the trace) and
returning the first candidate whose extracted title matches; with the list
exhausted, the code panics "unable to find window class" (x_interface.rs:216,
flagged in the source by a TODO asking for proper erroring). -/
def searchLoop (t : WindowTarget) (n : List Char) : List Client → List XRequest × RunResult Nat
  | [] => ([], .fatal .unableToFindWindowClass)
  | c :: rest =>
    if matchesProbe n (probedValue c t) then
      ([.getPropertyClient c.window], .ok c.window)
    else
      let res := searchLoop t n rest
      (.getPropertyClient c.window :: res.1, res.2)

/-- find_window_class (x_interface.rs:165-217): first reads the root's
_NET_CLIENT_LIST (one GetProperty request, whose reply is the `clients`
parameter), then either decodes a `Wid` target directly (panicking on an
unparseable id) or runs the candidate loop.  Atom interning for the probed
property names is modelled separately by `atomResolve`. -/
def find_window_class (clients : List Client) (t : WindowTarget) :
    List XRequest × RunResult Nat :=
  match t with
  | .Wid n =>
    ([.getPropertyClientList],
      match parseWid n with
      | some id => .ok id
      | none => .fatal .invalidWindowId)
  | .Name n =>
    let res := searchLoop (.Name n) n clients
    (.getPropertyClientList :: res.1, res.2)
  | .Class n =>
    let res := searchLoop (.Class n) n clients
    (.getPropertyClientList :: res.1, res.2)

/-- The target-resolution step of establish_image (x_interface.rs:120-124):
with a target present, run find_window_class; with none (whole screen), the
root window of the selected screen is returned and no request is issued. -/
def resolveTarget (screen : Nat) (clients : List Client) :
    Option WindowTarget → List XRequest × RunResult Nat
  | some t => find_window_class clients t
  | none => ([], .ok screen)

/-! ### Pixel conversion and image assembly (establish_image, x_interface.rs:148-161) -/

/-- The BGRx-to-RGBA conversion loop (x_interface.rs:151-156):
`img_data.chunks(4)` yields 4-byte groups with a possibly shorter final
group; for each group the code pushes `chunk[2], chunk[1], chunk[0], 0xff`.
A final group of fewer than 3 bytes makes `chunk[2]` (and for a 1-byte group
also `chunk[1]`) an out-of-bounds index — a Rust panic, modelled as `none`.
A final 3-byte group indexes only positions 2, 1, 0 and succeeds. -/
def convertPixels : List Nat → Option (List Nat)
  | [] => some []
  | b :: g :: r :: _ :: rest =>
    match convertPixels rest with
    | some out => some (r :: g :: b :: 255 :: out)
    | none => none
  | [b, g, r] => some [r, g, b, 255]
  | _ => none

/-- Models the external `image` crate's `RgbaImage::from_raw` as the Rust
code uses it (x_interface.rs:159): per that crate's documented contract the
constructor returns `None` exactly when the container is not big enough to
hold a `w × h` 4-channel image, i.e. when `buf.length < w * h * 4`; a larger
buffer is accepted. -/
def rgbaFromRaw (w h : Nat) (buf : List Nat) : Option (Nat × Nat × List Nat) :=
  if w * h * 4 ≤ buf.length then some (w, h, buf) else none

/-- The tail of establish_image after the GetImage reply
(x_interface.rs:148-161): convert the raw server bytes (a panic on an
out-of-bounds chunk index), then assemble the RgbaImage, where a failed
`from_raw` is the `.expect("failed image conversion")` panic — the event the
specification calls CaptureSizeMismatch. -/
def establishImageData (w h : Nat) (imgData : List Nat) :
    RunResult (Nat × Nat × List Nat) :=
  match convertPixels imgData with
  | none => .fatal .indexOutOfBounds
  | some pixels =>
    match rgbaFromRaw w h pixels with
    | some img => .ok img
    | none => .fatal .failedImageConversion

/-! ### Clipboard responder (write_to_clipboard, x_interface.rs:237-349) -/

/-- The X events the responder loop distinguishes (x_interface.rs:288-346).
`xcb::Event::Unknown` is asserted unreachable by the code and is not
modelled. -/
inductive XEvent where
  | selectionClear
  | selectionRequest (time requestor selection target property : Nat)
  | otherEvent
  deriving DecidableEq, Repr

/-- Outcome of processing one event of the responder loop:
continue waiting, break out of the loop, or propagate an error. -/
inductive StepOut where
  | next
  | halt
  | err
  deriving DecidableEq, Repr

/-- One iteration of the responder loop (x_interface.rs:288-346), given the
interned targets atom `tA`, the offered format's atom `fmt`, the encoded
image `buf` and the owner window `w`.  The environment flags give the
server-side success of the checked requests: `wOk` for the checked image-data
ChangeProperty, `dOk` for DestroyWindow, `fOk` for flush.  The targets-list
ChangeProperty and the SendEvent are issued with the unchecked
`send_request`, whose call site never observes a failure (any error is
delivered to the event queue later), so no flag applies to them.  Returns the
requests issued and the loop outcome. -/
def clipboardStep (tA fmt : Nat) (buf : List Nat) (w : Nat)
    (wOk dOk fOk : Bool) : XEvent → List XRequest × StepOut
  | .selectionClear => ([], .halt)
  | .otherEvent => ([], .next)
  | .selectionRequest t r s tgt p =>
    if tgt = tA then
      ([.changePropTargets r p [fmt], .sendNotify t r s tgt p, .flush],
        if fOk then .next else .err)
    else if tgt = fmt then
      if wOk then
        if dOk then
          ([.changePropData r p tgt buf, .destroyWindow w,
              .sendNotify t r s tgt p, .flush],
            if fOk then .halt else .err)
        else
          ([.changePropData r p tgt buf, .destroyWindow w], .err)
      else
        ([.changePropData r p tgt buf], .err)
    else
      ([.sendNotify t r s tgt p, .flush], if fOk then .next else .err)

/-- The responder loop (x_interface.rs:284-347) over a given stream of
incoming events: process events until one breaks the loop (`.ok`), one
propagates an error (`.err`), or the stream is exhausted — on which the real
code blocks forever in `wait_for_event`, modelled as `.blocked`. -/
def clipboardLoop (tA fmt : Nat) (buf : List Nat) (w : Nat)
    (wOk dOk fOk : Bool) : List XEvent → List XRequest × RunResult Unit
  | [] => ([], .blocked)
  | e :: rest =>
    let st := clipboardStep tA fmt buf w wOk dOk fOk e
    match st.2 with
    | .halt => (st.1, .ok ())
    | .err => (st.1, .err)
    | .next =>
      let tail := clipboardLoop tA fmt buf w wOk dOk fOk rest
      (st.1 ++ tail.1, tail.2)

/-- The environment of one write_to_clipboard run: the id the connection
generates for the owner window, the success flags of the checked setup
requests, the server's replies (the interned format atom and the owner
returned by GetSelectionOwner), the success flags consulted inside the loop,
and the stream of incoming events. -/
structure ClipEnv where
  ownerWindow : Nat
  createOk : Bool
  internOk : Bool
  imageFormatAtom : Nat
  setOwnerOk : Bool
  getOwnerOk : Bool
  ownerReply : Nat
  writeOk : Bool
  destroyOk : Bool
  flushOk : Bool
  events : List XEvent
  deriving Repr

/-- write_to_clipboard (x_interface.rs:237-349): create the owner window,
intern the MIME-type atom `mime`, claim the clipboard selection (atom
`clipboardAtom`, resolved by the atom cache modelled in `atomResolve`), query
the selection owner back, and panic "unable to establish window as clipboard
owner" (x_interface.rs:281) when the reply is not the just-created window;
otherwise run the responder loop.  Checked setup requests that fail
propagate as `.err` at their call site. -/
def write_to_clipboard (env : ClipEnv) (screen clipboardAtom targetsAtom : Nat)
    (mime : List Char) (imgBuf : List Nat) : List XRequest × RunResult Unit :=
  let w := env.ownerWindow
  if env.createOk then
    if env.internOk then
      let fmt := env.imageFormatAtom
      if env.setOwnerOk then
        if env.getOwnerOk then
          if env.ownerReply ≠ w then
            ([.createWindow w screen, .internAtom mime,
                .setSelectionOwner w clipboardAtom, .getSelectionOwner clipboardAtom],
              .fatal .unableToEstablishOwner)
          else
            let lr := clipboardLoop targetsAtom fmt imgBuf w
              env.writeOk env.destroyOk env.flushOk env.events
            ([.createWindow w screen, .internAtom mime,
                .setSelectionOwner w clipboardAtom, .getSelectionOwner clipboardAtom]
              ++ lr.1, lr.2)
        else
          ([.createWindow w screen, .internAtom mime,
              .setSelectionOwner w clipboardAtom, .getSelectionOwner clipboardAtom], .err)
      else
        ([.createWindow w screen, .internAtom mime,
            .setSelectionOwner w clipboardAtom], .err)
    else
      ([.createWindow w screen, .internAtom mime], .err)
  else
    ([.createWindow w screen], .err)

/-- Is a request a SelectionNotify acknowledgment? -/
def isNotifyReq : XRequest → Bool
  | .sendNotify _ _ _ _ _ => true
  | _ => false

/-! ### Theorems -/

/-- Flatten a list of raw 4-byte pixel groups, each in [B,G,R,X] order, into
the byte stream the server returns. -/
def bgrxFlatten : List (Nat × Nat × Nat × Nat) → List Nat
  | [] => []
  | (b, g, r, x) :: rest => b :: g :: r :: x :: bgrxFlatten rest

/-- The RGBA byte stream the specification expects for those groups:
[R,G,B,0xFF] per group, the X byte discarded. -/
def rgbaExpected : List (Nat × Nat × Nat × Nat) → List Nat
  | [] => []
  | (b, g, r, _) :: rest => r :: g :: b :: 255 :: rgbaExpected rest

/-- C1: for every stream of raw 4-byte pixel groups [B,G,R,X], the pixel
conversion of establish_image succeeds and turns each group into
[R,G,B,0xFF]; the fourth output byte is 0xFF for every value of X, the
values 0x00 and 0xFF included, since X is universally quantified. -/
theorem c1_pixel_conversion (gs : List (Nat × Nat × Nat × Nat)) :
    convertPixels (bgrxFlatten gs) = some (rgbaExpected gs) := by
  induction gs with
  | nil => rfl
  | cons hd tl ih =>
    obtain ⟨b, g, r, x⟩ := hd
    simp [bgrxFlatten, rgbaExpected, convertPixels, ih]

/-- Case analysis behind C10: the conversion loop succeeds with
length-preserving output on inputs of length divisible by 4, and hits an
out-of-bounds chunk index (`none`) on lengths of remainder 1 or 2. -/
theorem convertPixels_spec : ∀ data : List Nat,
    (data.length % 4 = 0 →
      ∃ out, convertPixels data = some out ∧ out.length = data.length) ∧
    (data.length % 4 = 1 ∨ data.length % 4 = 2 → convertPixels data = none)
  | [] => ⟨fun _ => ⟨[], rfl, rfl⟩, fun h => by simp at h⟩
  | [_] => ⟨fun h => by simp at h, fun _ => rfl⟩
  | [_, _] => ⟨fun h => by simp at h, fun _ => rfl⟩
  | [_, _, _] => ⟨fun h => by simp at h, fun h => by simp at h⟩
  | a :: b :: c :: d :: rest => by
    have ih := convertPixels_spec rest
    have hlen : (a :: b :: c :: d :: rest).length = rest.length + 4 := by
      simp [List.length_cons]
    constructor
    · intro h
      have hr : rest.length % 4 = 0 := by rw [hlen] at h; omega
      obtain ⟨out, ho, hl⟩ := ih.1 hr
      refine ⟨c :: b :: a :: 255 :: out, ?_, ?_⟩
      · simp [convertPixels, ho]
      · simp [List.length_cons, hl]
    · intro h
      have hr : rest.length % 4 = 1 ∨ rest.length % 4 = 2 := by
        rw [hlen] at h; omega
      have hn := ih.2 hr
      simp [convertPixels, hn]

/-- C10: the pixel-conversion loop is total exactly on inputs whose final
chunk has at least 3 bytes: for every raw byte sequence of length divisible
by 4, no out-of-bounds index occurs and the output has exactly the input's
length; for a length of remainder 1 or 2 modulo 4, the final chunk is
shorter than 3 bytes and the indexing panics (modelled as `none`). -/
theorem c10_conversion_totality :
    (∀ data : List Nat, data.length % 4 = 0 →
      ∃ out, convertPixels data = some out ∧ out.length = data.length) ∧
    (∀ data : List Nat, data.length % 4 = 1 ∨ data.length % 4 = 2 →
      convertPixels data = none) :=
  ⟨fun d h => (convertPixels_spec d).1 h, fun d h => (convertPixels_spec d).2 h⟩

/-- Witness for C10: a concrete length-4 input converts with length
preserved, and a concrete length-2 input panics. -/
theorem c10_conversion_totality_witness :
    (∃ out, convertPixels [1, 2, 3, 4] = some out ∧
      out.length = List.length [1, 2, 3, 4]) ∧
    convertPixels [9, 9] = none :=
  ⟨c10_conversion_totality.1 [1, 2, 3, 4] (by decide),
   c10_conversion_totality.2 [9, 9] (by decide)⟩

/-- C4, counterexample: the claim's "if and only if" fails in the only-if
direction.  For a 1×1 capture whose assembled pixel buffer has 8 bytes —
not equal to 1×1×4 — establish_image raises no error at all: the image
constructor accepts any buffer at least as long as required. -/
theorem c4_counterexample :
    establishImageData 1 1 [0, 0, 0, 0, 9, 9, 9, 9] =
      .ok (1, 1, [0, 0, 0, 255, 9, 9, 9, 255]) ∧
    List.length [0, 0, 0, 255, 9, 9, 9, 255] ≠ 1 * 1 * 4 := by
  constructor
  · rfl
  · decide

/-- C4, amended: the CaptureSizeMismatch event (the failed-image-conversion
panic) is raised if and only if the assembled pixel buffer is shorter than
width×height×4; on an exact-length buffer no error occurs and the image is
built from that buffer. -/
theorem c4_size_check (w h : Nat) (data pixels : List Nat)
    (hc : convertPixels data = some pixels) :
    (establishImageData w h data = .fatal .failedImageConversion ↔
      pixels.length < w * h * 4) ∧
    (pixels.length = w * h * 4 → establishImageData w h data = .ok (w, h, pixels)) := by
  unfold establishImageData rgbaFromRaw
  rw [hc]
  by_cases hle : w * h * 4 ≤ pixels.length <;> simp [hle]
  omega

/-- Witness for C4's amended theorem at a 1×1 capture with an exact-length
buffer. -/
theorem c4_size_check_witness :
    (establishImageData 1 1 [1, 2, 3, 4] = .fatal .failedImageConversion ↔
      List.length [3, 2, 1, 255] < 1 * 1 * 4) ∧
    (List.length [3, 2, 1, 255] = 1 * 1 * 4 →
      establishImageData 1 1 [1, 2, 3, 4] = .ok (1, 1, [3, 2, 1, 255])) :=
  c4_size_check 1 1 [1, 2, 3, 4] [3, 2, 1, 255] (by decide)

/-- C8: atom resolution is idempotent.  The first resolution of a name from
an empty cell issues exactly one InternAtom request (carrying the uppercased
name) and caches the server's reply; every subsequent resolution of the same
name returns the identical handle with an empty request trace — no new round
trip — whatever reply the server would have given. -/
theorem c8_atom_idempotent (name : List Char) (a : Nat) (laterReply : Option Nat) :
    atomResolve name none (some a) =
      (.ok a, some a, [.internAtom (asciiUpperL name)]) ∧
    atomResolve name (some a) laterReply = (.ok a, some a, []) :=
  ⟨rfl, rfl⟩

/-- C9: for the WholeScreen target specifier (no name, class or identifier
supplied), target resolution returns the root window of the selected screen
and issues no request to the server, for every client list the server could
hold. -/
theorem c9_whole_screen (screen : Nat) (clients : List Client) :
    resolveTarget screen clients none = ([], .ok screen) := rfl

/-- The candidate loop probes every candidate exactly once (in list order)
and panics when none matches. -/
theorem searchLoop_no_match (t : WindowTarget) (n : List Char) :
    ∀ clients : List Client,
      (∀ c ∈ clients, matchesProbe n (probedValue c t) = false) →
      searchLoop t n clients =
        (clients.map (fun c => XRequest.getPropertyClient c.window),
          .fatal .unableToFindWindowClass)
  | [], _ => rfl
  | c :: rest, h => by
    have hc := h c (List.mem_cons_self c rest)
    have hrest := searchLoop_no_match t n rest
      (fun x hx => h x (List.mem_cons_of_mem c hx))
    simp [searchLoop, hc, hrest]

/-- The candidate loop returns the first candidate, in list order, whose
probed property matches. -/
theorem searchLoop_first_match (t : WindowTarget) (n : List Char) :
    ∀ (pre : List Client) (c : Client) (rest : List Client),
      (∀ p ∈ pre, matchesProbe n (probedValue p t) = false) →
      matchesProbe n (probedValue c t) = true →
      (searchLoop t n (pre ++ c :: rest)).2 = .ok c.window
  | [], c, rest, _, hc => by simp [searchLoop, hc]
  | p :: ps, c, rest, hpre, hc => by
    have hp := hpre p (List.mem_cons_self p ps)
    have ih := searchLoop_first_match t n ps c rest
      (fun q hq => hpre q (List.mem_cons_of_mem p hq)) hc
    simpa [searchLoop, hp] using ih

/-- C2: for every client list in which no candidate's probed property
matches the search string, find_window_class — for a Name or a Class
target alike — probes every candidate exactly once (one GetProperty request
each, after the client-list read), and then ABORTS THE PROCESS with the
panic "unable to find window class" rather than returning the recoverable
TargetNotFound failure the specification mandates. -/
theorem c2_no_match_aborts (clients : List Client) (n : List Char)
    (t : WindowTarget) (ht : t = .Name n ∨ t = .Class n)
    (h : ∀ c ∈ clients, matchesProbe n (probedValue c t) = false) :
    find_window_class clients t =
      (.getPropertyClientList ::
          clients.map (fun c => XRequest.getPropertyClient c.window),
        .fatal .unableToFindWindowClass) := by
  rcases ht with ht | ht <;> subst ht <;>
    simp [find_window_class, searchLoop_no_match _ n clients h]

/-- Witness for C2: a one-candidate client list whose class matches nothing,
searched by class for "firefox", is fully probed and ends in the panic. -/
theorem c2_no_match_aborts_witness :
    find_window_class [⟨1, ("a").data, ("Other\x00Other").data⟩]
        (.Class ("firefox").data) =
      ([.getPropertyClientList, .getPropertyClient 1],
        .fatal .unableToFindWindowClass) := by
  exact c2_no_match_aborts _ _ _ (Or.inr rfl) (by decide)

/-- The specification's matching criterion for a Class target, as the claim
words it: the SECOND NUL-separated field of the class property (and that
field alone) must case-insensitively contain the search string.  Stated
separately from the source-derived `matchesProbe` so the two can be
compared: the source falls back to the WHOLE property value when no second
field exists. -/
def specClassMatches (needle raw : List Char) : Bool :=
  match (splitChar nulChar raw).get? 1 with
  | some second => hasSub (toLowerL needle) (toLowerL second)
  | none => false

/-- C3, counterexample: with client list [A(class="firefox"),
B(class="X\0Firefox")] and target Class "firefox", candidate A has no second
NUL-separated field — under the claim's criterion A does not match and B is
the first matching candidate — yet resolution returns A (window 1), because
the code falls back to matching the whole property value.  The claim's
"returns the first candidate whose class property's SECOND NUL-separated
field matches" is therefore false as stated. -/
theorem c3_counterexample :
    (find_window_class
        [⟨1, [], ("firefox").data⟩, ⟨2, [], ("X\x00Firefox").data⟩]
        (.Class ("firefox").data)).2 = .ok 1 ∧
    specClassMatches ("firefox").data ("firefox").data = false ∧
    specClassMatches ("firefox").data ("X\x00Firefox").data = true ∧
    (1 : Nat) ≠ 2 := by
  refine ⟨by decide, by decide, by decide, by decide⟩

/-- C3, amended: resolution by class returns the first candidate, in the
server's enumeration order, whose probed title — the second NUL-separated
field of the class property when it exists, otherwise the whole property
value — case-insensitively contains the search string. -/
theorem c3_first_match (n : List Char) (pre : List Client) (c : Client)
    (rest : List Client)
    (hpre : ∀ p ∈ pre, matchesProbe n p.classProp = false)
    (hc : matchesProbe n c.classProp = true) :
    (find_window_class (pre ++ c :: rest) (.Class n)).2 = .ok c.window := by
  have hs := searchLoop_first_match (.Class n) n pre c rest
    (fun p hp => hpre p hp) hc
  simpa [find_window_class] using hs

/-- Witness for C3's amended theorem: the end-to-end scenario of the claim —
target Class "firefox", client list [A(class="Other\0Other"),
B(class="X\0Firefox")] — resolves to B (window 2). -/
theorem c3_first_match_witness :
    (find_window_class
        [⟨1, [], ("Other\x00Other").data⟩, ⟨2, [], ("X\x00Firefox").data⟩]
        (.Class ("firefox").data)).2 = .ok 2 := by
  exact c3_first_match ("firefox").data [⟨1, [], ("Other\x00Other").data⟩]
    ⟨2, [], ("X\x00Firefox").data⟩ [] (by decide) (by decide)

/-- C5: after claiming the clipboard selection, the responder queries the
current selection owner; whenever the reply is not the just-created owner
window, write_to_clipboard stops before the event-servicing loop — the
request trace is exactly the four setup requests, so no event is consumed
and nothing is sent to any requestor — but it ABORTS THE PROCESS with the
panic "unable to establish window as clipboard owner" instead of failing
with the recoverable OwnershipNotEstablished error the specification
mandates. -/
theorem c5_ownership_aborts (env : ClipEnv) (screen clip tA : Nat)
    (mime : List Char) (buf : List Nat)
    (h1 : env.createOk = true) (h2 : env.internOk = true)
    (h3 : env.setOwnerOk = true) (h4 : env.getOwnerOk = true)
    (h5 : env.ownerReply ≠ env.ownerWindow) :
    write_to_clipboard env screen clip tA mime buf =
      ([.createWindow env.ownerWindow screen, .internAtom mime,
          .setSelectionOwner env.ownerWindow clip, .getSelectionOwner clip],
        .fatal .unableToEstablishOwner) := by
  simp [write_to_clipboard, h1, h2, h3, h4, h5]

/-- Witness for C5: a concrete run where the server reports window 2 as the
selection owner while the created window is 1, with an event already
pending: the run panics before touching the event. -/
theorem c5_ownership_aborts_witness :
    write_to_clipboard ⟨1, true, true, 7, true, true, 2, true, true, true,
        [XEvent.selectionClear]⟩ 0 5 6 [] [] =
      ([.createWindow 1 0, .internAtom [], .setSelectionOwner 1 5,
          .getSelectionOwner 5],
        .fatal .unableToEstablishOwner) := by
  exact c5_ownership_aborts _ 0 5 6 [] [] rfl rfl rfl rfl (by decide)

/-- C6: every selection-request event the responder processes to completion
— whatever the requested target atom: the targets query, the offered
format, or any other atom — makes it send exactly one selection-notify
acknowledgment, carrying the time, requestor, selection, target and property
of the incoming request unchanged, followed immediately by a flush of the
outgoing queue as the last action of the iteration, before the loop
continues or exits. -/
theorem c6_notify_ack (tA fmt : Nat) (buf : List Nat) (w : Nat)
    (wOk dOk fOk : Bool) (t r s tgt p : Nat)
    (h : (clipboardStep tA fmt buf w wOk dOk fOk
        (.selectionRequest t r s tgt p)).2 ≠ .err) :
    ∃ pre, (clipboardStep tA fmt buf w wOk dOk fOk
        (.selectionRequest t r s tgt p)).1 =
          pre ++ [XRequest.sendNotify t r s tgt p, XRequest.flush] ∧
      pre.countP isNotifyReq = 0 := by
  by_cases h1 : tgt = tA
  · exact ⟨[.changePropTargets r p [fmt]], by simp [clipboardStep, h1], rfl⟩
  · by_cases h2 : tgt = fmt
    · subst h2
      cases wOk with
      | false => exact absurd (by simp [clipboardStep, h1]) h
      | true =>
        cases dOk with
        | false => exact absurd (by simp [clipboardStep, h1]) h
        | true =>
          exact ⟨[.changePropData r p tgt buf, .destroyWindow w],
            by simp [clipboardStep, h1], rfl⟩
    · exact ⟨[], by simp [clipboardStep, h1, h2], rfl⟩

/-- Witness for C6 at a concrete targets-query request: the trace is the
targets write, then the one notify echoing the request's fields, then the
flush. -/
theorem c6_notify_ack_witness :
    ∃ pre, (clipboardStep 10 20 [7] 3 true true true
        (.selectionRequest 1 2 3 10 4)).1 =
          pre ++ [XRequest.sendNotify 1 2 3 10 4, XRequest.flush] ∧
      pre.countP isNotifyReq = 0 := by
  exact c6_notify_ack 10 20 [7] 3 true true true 1 2 3 10 4 (by decide)

/-- C7, counterexample: the targets-list write answering a targets query is
issued with the unchecked `send_request`, so its failure is never observed
at the call site: in an environment whose property writes fail
(`wOk = false`), the iteration still issues the targets write, still sends
the acknowledgment, still flushes, and CONTINUES the loop — it does not
abort the session with a ProtocolError as the claim states. -/
theorem c7_counterexample :
    clipboardStep 10 20 [7] 3 false true true
        (.selectionRequest 1 2 3 10 4) =
      ([.changePropTargets 2 4 [20], .sendNotify 1 2 3 10 4, .flush],
        .next) := by decide

/-- C7, amended: a failed CHECKED property write — the full-data write
answering a request for the offered format — propagates immediately: the
iteration ends at that single write attempt with the error outcome, no
second write attempt (no retry), no owner-window destruction and no
acknowledgment; the targets-list write, by contrast, is unchecked and its
failure never aborts the session. -/
theorem c7_data_write_propagates (tA fmt : Nat) (buf : List Nat) (w : Nat)
    (dOk fOk : Bool) (t r s p : Nat) (hne : fmt ≠ tA) :
    clipboardStep tA fmt buf w false dOk fOk
        (.selectionRequest t r s fmt p) =
      ([.changePropData r p fmt buf], .err) := by
  simp [clipboardStep, hne]

/-- Witness for C7's amended theorem at a concrete request for the offered
format with a failing write. -/
theorem c7_data_write_propagates_witness :
    clipboardStep 10 20 [7] 3 false true true
        (.selectionRequest 1 2 3 20 4) =
      ([.changePropData 2 4 20 [7]], .err) := by
  exact c7_data_write_propagates 10 20 [7] 3 true true 1 2 3 4 (by decide)

end Xshot
